import Mathlib

/-!
Shallow embedding of `render_mcp_server.py` (render-mcp-debug-agent).

Strings are modelled as `List Char`. Python's substring test `p in s` is
contiguous-substring containment, modelled by `containsSub`; `str.lower()`
is modelled by mapping `Char.toLower` (the patterns involved are ASCII);
`str.strip()` is modelled by dropping whitespace characters from both ends.
The outbound HTTP call of `get_build_logs` cannot be executed, so the
function returns either the configuration error or the request it would
issue; route handlers take the fetch outcome as an explicit argument and
report whether the fetcher was consulted.
-/

namespace RenderMCP

/-- Whitespace characters removed by Python `str.strip()` (ASCII range). -/
def isSpaceChar (c : Char) : Bool :=
  c == ' ' || c == '\t' || c == '\n' || c == '\r' || c == '\x0b' || c == '\x0c'

/-- Python `str.strip()`: drop whitespace from both ends. -/
def pyStrip (s : List Char) : List Char :=
  ((s.dropWhile isSpaceChar).reverse.dropWhile isSpaceChar).reverse

/-- Python `str.lower()` (character-wise, ASCII letters). -/
def lowerOf (s : List Char) : List Char := s.map Char.toLower

/-- Python `pat in s`: `pat` occurs as a contiguous substring of `s`. -/
def containsSub (pat s : List Char) : Bool := decide (pat <:+: s)

/-- `simple_auth_ok` (render_mcp_server.py lines 20-25).
`allowedKeys` is the `ALLOWED_KEYS` environment value ("" when unset);
`xApiKey` is the request's `X-API-KEY` header, `none` when absent
(Python's `req.headers.get("X-API-KEY", "")` defaults it to `""`). -/
def simple_auth_ok (allowedKeys : List Char) (xApiKey : Option (List Char)) : Bool :=
  if allowedKeys.isEmpty then true
  else
    let key := xApiKey.getD []
    let allowed := ((allowedKeys.splitOn ',').filter
      (fun k => !(pyStrip k).isEmpty)).map pyStrip
    decide (key ∈ allowed)

/-- The request `get_build_logs` would issue when configuration is present. -/
structure HttpRequest where
  url : List Char
  bearerToken : List Char
  timeoutSeconds : Nat
deriving DecidableEq

/-- The configuration error message raised by `get_build_logs`. -/
def configErrMsg : List Char :=
  ("RENDER_API_TOKEN and RENDER_SERVICE_ID must be set as environment variables.").data

/-- `get_build_logs` (lines 11-18): raises a configuration error when either
environment value is empty (Python falsiness of `""`), otherwise issues one
GET request; the network call itself is outside the model, so the `ok` case
carries the request that would be sent. -/
def get_build_logs (token serviceId : List Char) : Except (List Char) HttpRequest :=
  if token.isEmpty || serviceId.isEmpty then
    .error configErrMsg
  else
    .ok { url := ("https://api.render.com/v1/services/").data ++ serviceId ++ ("/logs").data
          bearerToken := token
          timeoutSeconds := 30 }

/-! ### Heuristic Diagnoser (lines 54-67) -/

/-- Rule 1, first literal variant (line 56). -/
def pat1a : List Char := ("module not founderror").data
/-- Rule 1, second literal variant (line 56). -/
def pat1b : List Char := ("modulenotfounderror").data
/-- Rule 2 pattern (line 58). -/
def patSyntax : List Char := ("syntaxerror").data
/-- Rule 3 patterns (line 60). -/
def patPip : List Char := ("pip install").data
def patFailed : List Char := ("failed").data
def patError : List Char := ("error").data
/-- Rule 4 pattern (line 62). -/
def patPerm : List Char := ("permission denied").data
/-- Rule 5 patterns (line 64). -/
def patOom1 : List Char := ("out of memory").data
def patOom2 : List Char := ("oom").data

/-- Rule 1 diagnostic (line 57). -/
def diagMissingPackage : List Char :=
  ("ModuleNotFoundError detected — missing Python package. Add the missing package to requirements.txt and redeploy.").data
/-- Rule 2 diagnostic (line 59). -/
def diagSyntax : List Char :=
  ("SyntaxError detected — check indentation, parentheses or invalid syntax in the mentioned file and line number.").data
/-- Rule 3 diagnostic (line 61). -/
def diagPip : List Char :=
  ("pip install failure — try pinning dependency versions or increasing build resources. Check wheels vs source build.").data
/-- Rule 4 diagnostic (line 63). -/
def diagPerm : List Char :=
  ("Permission denied — check file permissions and user running the build step.").data
/-- Rule 5 diagnostic (line 65). -/
def diagOom : List Char :=
  ("Out of memory — build is exceeding memory limits; try smaller build or increase plan.").data
/-- Fallback diagnostic (line 67). -/
def diagFallback : List Char :=
  ("No obvious pattern detected. Consider sharing a larger snippet of the build log or running the build locally for step-by-step debugging.").data

/-- Rule 1 predicate on the lower-cased text (line 56). -/
def rule1Hit (lower : List Char) : Bool :=
  containsSub pat1a lower || containsSub pat1b lower
/-- Rule 2 predicate (line 58). -/
def rule2Hit (lower : List Char) : Bool := containsSub patSyntax lower
/-- Rule 3 predicate (line 60). -/
def rule3Hit (lower : List Char) : Bool :=
  containsSub patPip lower && (containsSub patFailed lower || containsSub patError lower)
/-- Rule 4 predicate (line 62). -/
def rule4Hit (lower : List Char) : Bool := containsSub patPerm lower
/-- Rule 5 predicate (line 64). -/
def rule5Hit (lower : List Char) : Bool :=
  containsSub patOom1 lower || containsSub patOom2 lower

/-- The five appends of lines 56-65, applied to the already lower-cased text. -/
def diagnosticsRaw (lower : List Char) : List (List Char) :=
  (if rule1Hit lower then [diagMissingPackage] else []) ++
  (if rule2Hit lower then [diagSyntax] else []) ++
  (if rule3Hit lower then [diagPip] else []) ++
  (if rule4Hit lower then [diagPerm] else []) ++
  (if rule5Hit lower then [diagOom] else [])

/-- The Heuristic Diagnoser of `debug_with_ai` (lines 54-67): lower-case the
input once, collect one message per matching rule, fall back when empty. -/
def diagnostics (build_output : List Char) : List (List Char) :=
  let ds := diagnosticsRaw (lowerOf build_output)
  if ds.isEmpty then [diagFallback] else ds

/-! ### Fix Mapper (lines 70-81) -/

def fixRequirements : List Char :=
  ("Add the missing package to requirements.txt; ensure correct package name/version; then redeploy.").data
def fixSyntax : List Char :=
  ("Open the file and inspect the indicated line number for syntax issues; run `python -m pyflakes <file>` or `python -m py_compile <file>` locally.").data
def fixPin : List Char :=
  ("Pin dependency versions in requirements.txt, try `pip wheel` for heavy packages, or add system dependencies in your Render build script.").data
def fixMemory : List Char :=
  ("Use smaller build, split heavy dependencies, or upgrade Render plan. Add swap in build stage if possible.").data
def fixGeneric : List Char :=
  ("Inspect logs, confirm environment variables, and retry the build.").data

/-- The branch chain of lines 72-81 mapping one diagnostic to one fix. -/
def fixFor (d : List Char) : List Char :=
  let dl := lowerOf d
  if containsSub (("missing python package").data) dl
      || containsSub (("modulenotfounderror").data) dl then fixRequirements
  else if containsSub (("syntaxerror").data) dl then fixSyntax
  else if containsSub (("pip install failure").data) dl then fixPin
  else if containsSub (("out of memory").data) dl then fixMemory
  else fixGeneric

/-- The `for d in diagnostics` loop (lines 70-81): one fix per diagnostic. -/
def suggested_fixes (ds : List (List Char)) : List (List Char) := ds.map fixFor

/-! ### The `/debug` route (lines 37-91) -/

/-- The value of the `"logs"` field of the request body as the handler sees
it after `payload = request.json or {}` and `payload.get("logs", None)`:
either absent (no body, no field, or JSON `null`, which all yield Python
`None`), JSON `false`, or a JSON string. -/
inductive LogsField where
  | absent
  | jsonFalse
  | str (s : List Char)
deriving DecidableEq

/-- Python falsiness of the `build_output` value at line 49
(`if not build_output`). -/
def fieldFalsy : LogsField → Bool
  | .absent => true
  | .jsonFalse => true
  | .str s => s.isEmpty

/-- Successful `/debug` payload (lines 83-88); `status` is always `"ok"`. -/
structure DebugOk where
  diagnostics : List (List Char)
  suggested_fixes : List (List Char)
deriving DecidableEq

/-- Outcome of the `/debug` route: 401 unauthorized, 500 from a raised
exception (its message), or 200 with the JSON payload. -/
inductive DebugResult where
  | unauthorized
  | serverError (msg : List Char)
  | ok (payload : DebugOk)
deriving DecidableEq

/-- HTTP status code attached to each outcome (lines 45, 89, 91). -/
def httpCode : DebugResult → Nat
  | .unauthorized => 401
  | .serverError _ => 500
  | .ok _ => 200

/-- The analysis of lines 54-88 on a concrete log text. -/
def analyze (build_output : List Char) : DebugOk :=
  let ds := diagnostics build_output
  { diagnostics := ds, suggested_fixes := suggested_fixes ds }

/-- `debug_with_ai` (lines 37-91). `fetchOutcome` is what the call
`get_build_logs()` at line 51 would produce: `.error` when it raises
(configuration or HTTP failure, caught at line 90), `.ok` with the fetched
text otherwise. The returned Bool records whether that call was made. -/
def debug_with_ai (allowedKeys : List Char) (xApiKey : Option (List Char))
    (logsField : LogsField) (fetchOutcome : Except (List Char) (List Char)) :
    DebugResult × Bool :=
  if !simple_auth_ok allowedKeys xApiKey then (.unauthorized, false)
  else
    match logsField with
    | .str s =>
      if s.isEmpty then
        match fetchOutcome with
        | .error e => (.serverError e, true)
        | .ok fetched => (.ok (analyze fetched), true)
      else (.ok (analyze s), false)
    | _ =>
      match fetchOutcome with
      | .error e => (.serverError e, true)
      | .ok fetched => (.ok (analyze fetched), true)

/-! ### Spec-side definitions used to state the claims -/

/-- Modelled from the spec (claim C1's wording): the supplied key is trimmed
before being compared against the comma-split, individually trimmed
allow-list entries. -/
def specTrimmedKeyAllowed (allowedKeys key : List Char) : Bool :=
  decide (pyStrip key ∈ (allowedKeys.splitOn ',').map pyStrip)

/-- None of the five pattern rules matches the lower-cased text. -/
def noneMatch (build_output : List Char) : Bool :=
  let lower := lowerOf build_output
  !rule1Hit lower && !rule2Hit lower && !rule3Hit lower
    && !rule4Hit lower && !rule5Hit lower

/-- The Diagnoser's rule table in evaluation order: predicate on the
lower-cased text, paired with the emitted message. -/
def ruleTable : List ((List Char → Bool) × List Char) :=
  [(rule1Hit, diagMissingPackage), (rule2Hit, diagSyntax), (rule3Hit, diagPip),
   (rule4Hit, diagPerm), (rule5Hit, diagOom)]

/-! ## Claims -/

/-- C1 counterexample: with `ALLOWED_KEYS = "a"` (a non-empty allow-list)
and supplied key `" a "`, the code rejects the request, yet the supplied
key trimmed of surrounding whitespace does match an entry of the
comma-split, individually trimmed allow-list — so the claimed iff fails. -/
theorem C1_counterexample :
    (("a").data ≠ ([] : List Char))
      ∧ simple_auth_ok (("a").data) (some ((" a ").data)) = false
      ∧ specTrimmedKeyAllowed (("a").data) ((" a ").data) = true := by
  refine ⟨by decide, by decide, by decide⟩

/-- C1 (amended): the supplied key is compared exactly as sent, without
trimming; the Access Guard allows a request iff `ALLOWED_KEYS` is
empty/unset, or the untrimmed supplied key (defaulting to the empty string
when the header is absent) equals one entry of the comma-split allow-list
after each entry is trimmed and whitespace-only entries are dropped. -/
theorem C1_auth_characterization (allowedKeys : List Char) (xApiKey : Option (List Char)) :
    simple_auth_ok allowedKeys xApiKey = true ↔
      (allowedKeys = [] ∨
        xApiKey.getD [] ∈
          ((allowedKeys.splitOn ',').filter
            (fun k => !(pyStrip k).isEmpty)).map pyStrip) := by
  unfold simple_auth_ok
  by_cases h : allowedKeys = []
  · simp [h]
  · simp [h, List.isEmpty_iff]

/-- C2: for every input log text, the suggested_fixes sequence has exactly
the length of the diagnostics sequence, and its entry at each position is
the fix computed from the diagnostic at the same position. -/
theorem C2_parallel_sequences (t : List Char) :
    (suggested_fixes (diagnostics t)).length = (diagnostics t).length
      ∧ ∀ i : Nat,
          (suggested_fixes (diagnostics t))[i]? = ((diagnostics t)[i]?).map fixFor := by
  refine ⟨List.length_map _ _, fun i => ?_⟩
  simp [suggested_fixes, List.getElem?_map]

/-- C6 counterexample: the phrase `"missing python package"` DOES occur in
the lower-cased text of rule 1's diagnostic, contrary to the claim. -/
theorem C6_counterexample :
    containsSub (("missing python package").data) (lowerOf diagMissingPackage) = true := by
  decide

/-- C6 (amended): lower-casing rule 1's diagnostic turns
`"missing Python package"` into `"missing python package"`, so the Fix
Mapper's substring check does match the diagnostic's actual wording (as
does its second disjunct `"modulenotfounderror"`), and the first branch
maps rule 1's diagnostic to the requirements fix. -/
theorem C6_fix_mapper_matches :
    containsSub (("missing python package").data) (lowerOf diagMissingPackage) = true
      ∧ containsSub (("modulenotfounderror").data) (lowerOf diagMissingPackage) = true
      ∧ fixFor diagMissingPackage = fixRequirements := by
  refine ⟨by decide, by decide, by decide⟩

/-- C7: when either required configuration value is empty, `get_build_logs`
returns the configuration error and never produces an outbound request. -/
theorem C7_config_checked_first (token serviceId : List Char)
    (h : token = [] ∨ serviceId = []) :
    get_build_logs token serviceId = .error configErrMsg
      ∧ ∀ req : HttpRequest, get_build_logs token serviceId ≠ .ok req := by
  have herr : get_build_logs token serviceId = .error configErrMsg := by
    unfold get_build_logs
    rcases h with h | h <;> simp [h]
  exact ⟨herr, fun req hok => by rw [herr] at hok; cases hok⟩

/-- C7 witness at `token = ""`, `serviceId = "svc"`. -/
theorem C7_witness :
    get_build_logs [] (("svc").data) = .error configErrMsg :=
  (C7_config_checked_first [] (("svc").data) (Or.inl rfl)).1

/-- C10: with any non-empty `ALLOWED_KEYS`, a request whose `X-API-KEY`
header is absent or empty is never authorized, because whitespace-only
entries are dropped from the allow-list before membership is tested. -/
theorem C10_empty_key_rejected (allowedKeys : List Char) (h : allowedKeys ≠ []) :
    simple_auth_ok allowedKeys none = false
      ∧ simple_auth_ok allowedKeys (some []) = false := by
  have hnot : ([] : List Char) ∉
      ((allowedKeys.splitOn ',').filter (fun k => !(pyStrip k).isEmpty)).map pyStrip := by
    intro hmem
    obtain ⟨k, hk, hstrip⟩ := List.mem_map.mp hmem
    have hfilt := (List.mem_filter.mp hk).2
    rw [hstrip] at hfilt
    simp at hfilt
  have hne : allowedKeys.isEmpty = false := by
    simp [List.isEmpty_iff, h]
  constructor <;> simp [simple_auth_ok, hne, hnot]

/-- C10 witness at `ALLOWED_KEYS = "a,,b"`. -/
theorem C10_witness :
    simple_auth_ok (("a,,b").data) none = false
      ∧ simple_auth_ok (("a,,b").data) (some []) = false :=
  C10_empty_key_rejected (("a,,b").data) (by decide)

/-- Helper: the raw rule pass equals the in-order filter of the rule table. -/
theorem diagnosticsRaw_eq_filter (l : List Char) :
    diagnosticsRaw l = (ruleTable.filter (fun r => r.1 l)).map Prod.snd := by
  unfold diagnosticsRaw ruleTable
  cases h1 : rule1Hit l <;> cases h2 : rule2Hit l <;> cases h3 : rule3Hit l <;>
    cases h4 : rule4Hit l <;> cases h5 : rule5Hit l <;>
      simp [h1, h2, h3, h4, h5, List.filter_cons]

/-- Helper: the Diagnoser's output never contains a duplicate message. -/
theorem diagnostics_nodup (t : List Char) : (diagnostics t).Nodup := by
  unfold diagnostics
  by_cases h : (diagnosticsRaw (lowerOf t)).isEmpty = true
  · simp [h]
  · simp only [h, if_neg, Bool.false_eq_true, not_false_iff]
    rw [diagnosticsRaw_eq_filter]
    have htable : (ruleTable.map Prod.snd).Nodup := by
      simp [ruleTable]
      decide
    exact htable.sublist ((List.filter_sublist _).map _)

/-- Helper: a rule that fires contributes its message to the output. -/
theorem rule_hit_mem (t : List Char) (r : (List Char → Bool) × List Char)
    (hr : r ∈ ruleTable) (hhit : r.1 (lowerOf t) = true) :
    r.2 ∈ diagnostics t := by
  have hmemraw : r.2 ∈ diagnosticsRaw (lowerOf t) := by
    rw [diagnosticsRaw_eq_filter]
    exact List.mem_map_of_mem _ (List.mem_filter.mpr ⟨hr, hhit⟩)
  unfold diagnostics
  have hne : (diagnosticsRaw (lowerOf t)).isEmpty = false := by
    rcases hd : diagnosticsRaw (lowerOf t) with _ | ⟨a, rest⟩
    · rw [hd] at hmemraw; cases hmemraw
    · rfl
  simpa [hne] using hmemraw

/-- C3: any log text containing a substring that lower-cases to
`"modulenotfounderror"` (i.e. `ModuleNotFoundError` in any letter case)
makes the Diagnoser emit the missing-package message, whatever else the
text contains. -/
theorem C3_module_not_found (t : List Char)
    (h : ∃ sub, sub <:+: t ∧ lowerOf sub = pat1b) :
    diagMissingPackage ∈ diagnostics t := by
  obtain ⟨sub, hsub, hl⟩ := h
  have hinf : pat1b <:+: lowerOf t := hl ▸ List.IsInfix.map Char.toLower hsub
  have h1 : rule1Hit (lowerOf t) = true := by
    have : containsSub pat1b (lowerOf t) = true := decide_eq_true hinf
    simp [rule1Hit, this]
  exact rule_hit_mem t (rule1Hit, diagMissingPackage) (List.Mem.head _) h1

/-- C3 witness: an upper-cased occurrence inside a longer log line. -/
theorem C3_witness :
    diagMissingPackage ∈
      diagnostics (("Build failed: MODULENOTFOUNDERROR: No module named requests").data) :=
  C3_module_not_found _ ⟨("MODULENOTFOUNDERROR").data, by decide, by decide⟩

/-- C4: when none of the five pattern rules matches the lower-cased text,
the Diagnoser returns exactly the one fallback message; and its output is
never empty on any input. -/
theorem C4_fallback_nonempty (t : List Char) :
    (noneMatch t = true → diagnostics t = [diagFallback])
      ∧ diagnostics t ≠ [] := by
  constructor
  · intro h
    simp only [noneMatch, Bool.and_eq_true, Bool.not_eq_true'] at h
    obtain ⟨⟨⟨⟨h1, h2⟩, h3⟩, h4⟩, h5⟩ := h
    have hraw : diagnosticsRaw (lowerOf t) = [] := by
      simp [diagnosticsRaw, h1, h2, h3, h4, h5]
    simp [diagnostics, hraw]
  · unfold diagnostics
    by_cases h : (diagnosticsRaw (lowerOf t)).isEmpty = true
    · simp [h]
    · simp only [h, if_neg, Bool.false_eq_true, not_false_iff]
      exact fun hnil => h (by simp [hnil])

/-- C4 witness: `"hello"` matches no rule and yields only the fallback. -/
theorem C4_witness :
    noneMatch (("hello").data) = true
      ∧ diagnostics (("hello").data) = [diagFallback] :=
  ⟨by decide, (C4_fallback_nonempty (("hello").data)).1 (by decide)⟩

/-- C5: the rules are evaluated independently in the fixed order 1-5 with
no short-circuiting: the raw pass equals the in-order filter of the rule
table (so a text matching several rules yields several messages, each rule
contributing at most one), the output has no duplicates, and every rule
that fires has its message in the output. -/
theorem C5_rules_independent_ordered (t : List Char) :
    diagnosticsRaw (lowerOf t)
        = (ruleTable.filter (fun r => r.1 (lowerOf t))).map Prod.snd
      ∧ (diagnostics t).Nodup
      ∧ ∀ r ∈ ruleTable, r.1 (lowerOf t) = true → r.2 ∈ diagnostics t :=
  ⟨diagnosticsRaw_eq_filter (lowerOf t), diagnostics_nodup t,
   fun r hr hhit => rule_hit_mem t r hr hhit⟩

/-- C5 witness: a text matching rules 1 and 5 gets both messages, in rule
order, with no duplicate. -/
theorem C5_witness :
    diagnosticsRaw (lowerOf (("ModuleNotFoundError after OOM").data))
        = [diagMissingPackage, diagOom]
      ∧ diagOom ∈ diagnostics (("ModuleNotFoundError after OOM").data) := by
  refine ⟨?_, ?_⟩
  · rw [(C5_rules_independent_ordered (("ModuleNotFoundError after OOM").data)).1]
    simp [ruleTable, List.filter_cons]
    decide
  · exact (C5_rules_independent_ordered (("ModuleNotFoundError after OOM").data)).2.2
      (rule5Hit, diagOom) (by simp [ruleTable]) (by decide)

/-- The request body of testable property 7 / claim C8. -/
def permLogC8 : List Char := ("Error: permission denied while writing file").data

set_option maxRecDepth 8192 in
/-- C8: with no auth configured, `POST /debug` on the permission-denied
log returns 200/ok with the permission diagnostic and its parallel
suggested fix, for any header and regardless of what the fetcher would
return — and the fetcher is not consulted (second component `false`). -/
theorem C8_end_to_end (xApiKey : Option (List Char))
    (fetchOutcome : Except (List Char) (List Char)) :
    debug_with_ai [] xApiKey (.str permLogC8) fetchOutcome
        = (.ok { diagnostics := [diagPerm], suggested_fixes := [fixGeneric] }, false)
      ∧ httpCode (debug_with_ai [] xApiKey (.str permLogC8) fetchOutcome).1 = 200 := by
  have hauth : simple_auth_ok [] xApiKey = true := rfl
  have hs : permLogC8.isEmpty = false := by decide
  have h1 : debug_with_ai [] xApiKey (.str permLogC8) fetchOutcome
      = (.ok (analyze permLogC8), false) := by
    simp [debug_with_ai, hauth, hs]
  have h2 : analyze permLogC8
      = { diagnostics := [diagPerm], suggested_fixes := [fixGeneric] } := by decide
  rw [h1, h2]
  exact ⟨rfl, rfl⟩

/-- C9: a `"logs"` body value that is Python-falsy (absent/null, `false`,
or the empty string) behaves exactly like an absent body: the handler
calls the Log Fetcher and, when the fetch succeeds, diagnoses the fetched
text rather than the supplied one. -/
theorem C9_falsy_body_fetches (allowedKeys : List Char) (xApiKey : Option (List Char))
    (f : LogsField) (fetchOutcome : Except (List Char) (List Char))
    (hf : fieldFalsy f = true) :
    debug_with_ai allowedKeys xApiKey f fetchOutcome
        = debug_with_ai allowedKeys xApiKey .absent fetchOutcome
      ∧ (simple_auth_ok allowedKeys xApiKey = true →
          (debug_with_ai allowedKeys xApiKey f fetchOutcome).2 = true
            ∧ ∀ fetched, fetchOutcome = .ok fetched →
                (debug_with_ai allowedKeys xApiKey f fetchOutcome).1
                  = .ok (analyze fetched)) := by
  cases hauth : simple_auth_ok allowedKeys xApiKey
  · constructor
    · cases f <;> simp [debug_with_ai, hauth]
    · intro hcontra; cases hcontra
  · have heq : debug_with_ai allowedKeys xApiKey f fetchOutcome
        = debug_with_ai allowedKeys xApiKey .absent fetchOutcome := by
      cases f with
      | absent => rfl
      | jsonFalse => simp [debug_with_ai, hauth]
      | str s =>
        have hs : s.isEmpty = true := hf
        simp [debug_with_ai, hauth, hs]
    refine ⟨heq, fun _ => ?_⟩
    rw [heq]
    cases fetchOutcome with
    | error e =>
      refine ⟨by simp [debug_with_ai, hauth], fun fetched hok => by cases hok⟩
    | ok fetched =>
      refine ⟨by simp [debug_with_ai, hauth], fun fetched' hok => ?_⟩
      cases hok
      simp [debug_with_ai, hauth]

/-- C9 witness: an empty-string body with a successful fetch of `"oom"`
behaves like an absent body and diagnoses the fetched text. -/
theorem C9_witness :
    debug_with_ai [] none (.str []) (Except.ok (("oom").data))
        = debug_with_ai [] none .absent (Except.ok (("oom").data))
      ∧ (debug_with_ai [] none (.str []) (Except.ok (("oom").data))).1
          = .ok (analyze (("oom").data)) :=
  ⟨(C9_falsy_body_fetches [] none (.str []) (Except.ok (("oom").data)) (by decide)).1,
   ((C9_falsy_body_fetches [] none (.str []) (Except.ok (("oom").data)) (by decide)).2
      rfl).2 (("oom").data) rfl⟩

end RenderMCP
